import Mathlib

/-!
Shallow embedding of the clickstream behaviour detector
(`Detect User Behaviour/behaviour_detector.py`).

The detector keeps, per user key, a session record with an automaton
state, the accumulated list of accepted events, and a computed offer
identifier.  Each incoming event is filtered for the demographic
attributes, checked against a page-refresh guard, and then run through
the transition table of the current state; the time-window guard is
conjoined onto every rule.  Reaching the offer state appends a
recipient pair and resets the session.

Partiality of the Python code (KeyError on an unknown state in the
transition table, IndexError on `rows[0]` inside the shoes_visited
guards) is made explicit: those accesses return `none`, and event
processing yields `Option`.
-/

/-- Event record: one observed interaction.  `age` and `gender` are
optional, matching the membership tests `"age" not in row` and
`"gender" not in row` of the source. -/
structure Event where
  time : String
  timestamp : Int
  userId : String
  category : String
  age : Option Int
  gender : Option String
  ip : String
  productId : String
  deriving DecidableEq

/-- Per-key session record: automaton position, accepted events, and
the offer identifier last computed. -/
structure SessionState where
  state : String
  rows : List Event
  offer : String
  deriving DecidableEq

/-- Empty/default session state created on first access of a key:
the `state`/`rows` fields are initialized to `"init"`/`[]` by the
source before first use, and `offer` is always overwritten before it
is read. -/
def initialState : SessionState := ⟨"init", [], ""⟩

/-- The window duration in nanoseconds: `window_minutes * 60 * 1e9`. -/
def window_ns (window_minutes : Int) : Int :=
  window_minutes * 60 * 1000000000

/-- Embeds `check_time_elapsed`: trivially true on an empty session,
otherwise the elapsed time from the anchor event must be below the
window. -/
def check_time_elapsed (window_minutes : Int) (row : Event)
    (current_state : SessionState) : Bool :=
  match current_state.rows with
  | [] => true
  | r0 :: _ => row.timestamp - r0.timestamp < window_ns window_minutes

/-- Guard of the single `init` rule.  The Python conjunction
short-circuits: `gender`/`age` are only read when the category is
clothing (and `age` only when the gender is M or F); a missing read
raises, here `none`. -/
def cond_init_clothing (row : Event) (_ : SessionState) : Option Bool :=
  if row.category == "clothing" then
    match row.gender with
    | none => none
    | some g =>
      if g == "M" || g == "F" then
        match row.age with
        | none => none
        | some a =>
          some ((g == "M" && (35 ≤ a && a ≤ 45))
            || (g == "F" && (25 ≤ a && a ≤ 35)))
      else some false
  else some false

/-- Guard of the first `clothes_visited` rule. -/
def cond_clothes_shoes (row : Event) (_ : SessionState) : Option Bool :=
  some (row.category == "shoes")

/-- Guard of the second `clothes_visited` rule. -/
def cond_clothes_clothing (row : Event) (_ : SessionState) : Option Bool :=
  some (row.category == "clothing")

/-- Guard of the first `shoes_visited` rule; reads `rows[0]`, which
raises on an empty session, here `none`. -/
def cond_shoes_offer (row : Event) (current_state : SessionState) : Option Bool :=
  if row.category == "clothing" then
    match current_state.rows with
    | [] => none
    | r0 :: _ => some (row.productId != r0.productId)
  else some false

/-- Guard of the second `shoes_visited` rule; also reads `rows[0]`. -/
def cond_shoes_clothing (row : Event) (current_state : SessionState) : Option Bool :=
  if row.category == "clothing" then
    match current_state.rows with
    | [] => none
    | r0 :: _ => some (row.productId == r0.productId)
  else some false

/-- One entry of a per-state rule list. -/
structure Transition where
  condition : Event → SessionState → Option Bool
  next_state : String

/-- The transition table, keyed by state name; `none` models the
KeyError a lookup of an undeclared state would raise. -/
def transitions : String → Option (List Transition)
  | "init" =>
      some [⟨cond_init_clothing, "clothes_visited"⟩]
  | "clothes_visited" =>
      some [⟨cond_clothes_shoes, "shoes_visited"⟩,
            ⟨cond_clothes_clothing, "clothes_visited"⟩]
  | "shoes_visited" =>
      some [⟨cond_shoes_offer, "offer"⟩,
            ⟨cond_shoes_clothing, "clothes_visited"⟩]
  | _ => none

/-- The rule loop: evaluate the rules in declaration order; the first
rule whose condition holds together with the window guard wins.
`some none` means the loop fell through with no match; `none` means a
condition raised. -/
def find_transition (wm : Int) (row : Event) (st : SessionState) :
    List Transition → Option (Option String)
  | [] => some none
  | t :: ts =>
    match t.condition row st with
    | none => none
    | some c =>
      if c && check_time_elapsed wm row st then some (some t.next_state)
      else find_transition wm row st ts

/-- Offer identifier computed from the gender of the current event. -/
def offer_for (g : String) : String :=
  if g == "M" then "offer1" else "offer2"

/-- Page-refresh guard: `rows` non-empty and the last element shares
the productId of the incoming event. -/
def is_page_refresh (st : SessionState) (row : Event) : Bool :=
  match st.rows.getLast? with
  | some r => r.productId == row.productId
  | none => false

/-- Processing of a single event against the session state of its key,
following `process_dataframe` step by step: demographic filter, offer
recomputation, page-refresh guard, rule loop, reset on no match, offer
trigger.  Returns the new session state and the recipient entries
appended by this event; `none` models an uncaught exception. -/
def process_event (wm : Int) (st0 : SessionState) (row : Event) :
    Option (SessionState × List (String × String)) :=
  match row.gender with
  | none => some (st0, [])
  | some g =>
    match row.age with
    | none => some (st0, [])
    | some _ =>
      let st := { st0 with offer := offer_for g }
      if is_page_refresh st row then some (st, [])
      else
        match transitions st.state with
        | none => none
        | some ts =>
          match find_transition wm row st ts with
          | none => none
          | some none => some ({ st with state := "init", rows := [] }, [])
          | some (some ns) =>
            let st1 := { st with state := ns, rows := st.rows ++ [row] }
            if st1.state == "offer" then
              some ({ st1 with state := "init", rows := [] },
                    [(row.userId, st1.offer)])
            else
              some (st1, [])

/-- Processing of an ordered sequence of events for one key,
threading the session state and accumulating the recipient sink. -/
def process_events (wm : Int) :
    SessionState → List (String × String) → List Event →
    Option (SessionState × List (String × String))
  | st, recips, [] => some (st, recips)
  | st, recips, row :: rest =>
    match process_event wm st row with
    | none => none
    | some (st1, out) => process_events wm st1 (recips ++ out) rest

/-- Eligible click event, as used throughout the test scenarios. -/
def clickEvent (t : Int) (u g : String) (a : Int) (cat p : String) : Event :=
  ⟨"", t, u, cat, some a, some g, "", p⟩

/-- States declared in the transition table. -/
def StateOK (st : SessionState) : Prop :=
  st.state = "init" ∨ st.state = "clothes_visited" ∨ st.state = "shoes_visited"

/-- Rest-state invariant: the state is declared, and the session is
empty exactly in the initial state. -/
def SessionInv (st : SessionState) : Prop :=
  StateOK st ∧ (st.rows = [] ↔ st.state = "init")

/-! ### Helper lemmas -/

/-- Processing an event that lacks `gender` or `age` is a pure skip. -/
lemma process_event_ineligible (wm : Int) (st : SessionState) (row : Event)
    (h : row.gender = none ∨ row.age = none) :
    process_event wm st row = some (st, []) := by
  rcases h with h | h
  · simp [process_event, h]
  · cases hg : row.gender <;> simp [process_event, hg, h]

/-- Processing an eligible event caught by the page-refresh guard
keeps `state` and `rows` and only rewrites the offer field. -/
lemma process_event_refresh (wm : Int) (st : SessionState) (row : Event)
    (g : String) (a : Int)
    (hg : row.gender = some g) (ha : row.age = some a)
    (href : is_page_refresh st row = true) :
    process_event wm st row = some ({ st with offer := offer_for g }, []) := by
  have href2 : is_page_refresh { st with offer := offer_for g } row = true := href
  simp [process_event, hg, ha, href2]

/-- Unfolds one eligible, non-duplicate processing step to the outcome
of the rule loop. -/
lemma process_event_eq_of_find (wm : Int) (st : SessionState) (row : Event)
    (g : String) (a : Int) (ts : List Transition)
    (r : Option String)
    (hg : row.gender = some g) (ha : row.age = some a)
    (href : is_page_refresh st row = false)
    (htr : transitions st.state = some ts)
    (hfind : find_transition wm row { st with offer := offer_for g } ts = some r) :
    process_event wm st row =
      match r with
      | none => some (⟨"init", [], offer_for g⟩, [])
      | some ns =>
        if ns == "offer" then
          some (⟨"init", [], offer_for g⟩, [(row.userId, offer_for g)])
        else
          some (⟨ns, st.rows ++ [row], offer_for g⟩, []) := by
  have href2 : is_page_refresh { st with offer := offer_for g } row = false := href
  have htr2 : transitions ({ st with offer := offer_for g } : SessionState).state = some ts := htr
  simp only [process_event, hg, ha, href2, Bool.false_eq_true, if_false, htr2, hfind]
  cases r with
  | none => rfl
  | some ns =>
    by_cases hns : (ns == "offer") = true
    · simp [hns]
    · simp only [Bool.not_eq_true] at hns
      simp [hns]

/-- When the window guard fails, the rule loop falls through with no
match, provided no condition raises. -/
lemma find_transition_no_match (wm : Int) (row : Event) (st : SessionState)
    (ts : List Transition)
    (htime : check_time_elapsed wm row st = false)
    (hconds : ∀ t ∈ ts, (t.condition row st).isSome) :
    find_transition wm row st ts = some none := by
  induction ts with
  | nil => rfl
  | cons t ts ih =>
    obtain ⟨b, hb⟩ := Option.isSome_iff_exists.mp (hconds t (by simp))
    rw [find_transition, hb, htime]
    simp only [Bool.and_false, if_false]
    exact ih fun t ht => hconds t (by simp [ht])

/-- When no condition raises, the rule loop returns a result, and any
matched target state comes from the rule list. -/
lemma find_transition_total (wm : Int) (row : Event) (st : SessionState)
    (ts : List Transition)
    (hconds : ∀ t ∈ ts, (t.condition row st).isSome) :
    ∃ r, find_transition wm row st ts = some r ∧
      ∀ ns, r = some ns → ns ∈ ts.map Transition.next_state := by
  induction ts with
  | nil => exact ⟨none, rfl, by simp⟩
  | cons t ts ih =>
    obtain ⟨b, hb⟩ := Option.isSome_iff_exists.mp (hconds t (by simp))
    by_cases hc : (b && check_time_elapsed wm row st) = true
    · refine ⟨some t.next_state, ?_, ?_⟩
      · simp [find_transition, hb, hc]
      · intro ns hns
        simp at hns
        simp [hns]
    · obtain ⟨r, hr, htgt⟩ := ih fun t ht => hconds t (by simp [ht])
      refine ⟨r, ?_, ?_⟩
      · simp only [Bool.not_eq_true] at hc
        simp [find_transition, hb, hc, hr]
      · intro ns hns
        simp [htgt ns hns]

/-- The `init` guard never raises on an eligible event. -/
lemma cond_init_clothing_isSome (row : Event) (st : SessionState)
    (g : String) (a : Int)
    (hg : row.gender = some g) (ha : row.age = some a) :
    (cond_init_clothing row st).isSome := by
  simp only [cond_init_clothing, hg, ha]
  split
  · split <;> simp
  · simp

/-- The `shoes_visited` guards never raise on a non-empty session. -/
lemma cond_shoes_offer_isSome (row : Event) (st : SessionState)
    (hrows : st.rows ≠ []) :
    (cond_shoes_offer row st).isSome := by
  rw [cond_shoes_offer]
  cases h : st.rows with
  | nil => exact absurd h hrows
  | cons r0 tl => split <;> simp

lemma cond_shoes_clothing_isSome (row : Event) (st : SessionState)
    (hrows : st.rows ≠ []) :
    (cond_shoes_clothing row st).isSome := by
  rw [cond_shoes_clothing]
  cases h : st.rows with
  | nil => exact absurd h hrows
  | cons r0 tl => split <;> simp

lemma sessionInv_initialState : SessionInv initialState :=
  ⟨Or.inl rfl, by simp [initialState]⟩

/-- On an invariant-satisfying session, every condition of the rule
list of the current state evaluates without raising. -/
lemma conds_isSome (row : Event) (st : SessionState) (g : String) (a : Int)
    (ts : List Transition)
    (hg : row.gender = some g) (ha : row.age = some a)
    (hok : StateOK st)
    (hshoes : st.state = "shoes_visited" → st.rows ≠ [])
    (htr : transitions st.state = some ts) :
    ∀ t ∈ ts, (t.condition row st).isSome := by
  rcases hok with hs | hs | hs <;> rw [hs] at htr <;>
    simp only [transitions, Option.some.injEq] at htr <;> subst htr
  · intro t ht
    simp only [List.mem_singleton] at ht
    subst ht
    exact cond_init_clothing_isSome row st g a hg ha
  · intro t ht
    simp only [List.mem_cons, List.not_mem_nil, or_false] at ht
    rcases ht with ht | ht <;> subst ht <;> simp [cond_clothes_shoes, cond_clothes_clothing]
  · intro t ht
    simp only [List.mem_cons, List.not_mem_nil, or_false] at ht
    rcases ht with ht | ht <;> subst ht
    · exact cond_shoes_offer_isSome row st (hshoes hs)
    · exact cond_shoes_clothing_isSome row st (hshoes hs)

/-- Any target state of any rule list is again a declared state, and
never `"init"`. -/
lemma targets_ok (s : String) (ts : List Transition) (ns : String)
    (hok : s = "init" ∨ s = "clothes_visited" ∨ s = "shoes_visited")
    (htr : transitions s = some ts)
    (hns : ns ∈ ts.map Transition.next_state) :
    ns = "clothes_visited" ∨ ns = "shoes_visited" ∨ ns = "offer" := by
  rcases hok with h | h | h <;> subst h <;>
    simp only [transitions, Option.some.injEq] at htr <;> subst htr <;>
    simp only [List.map_cons, List.map_nil, List.mem_cons, List.mem_singleton,
      List.not_mem_nil, or_false] at hns
  · simp [hns]
  · rcases hns with h | h <;> simp [h]
  · rcases hns with h | h <;> simp [h]

/-- Processing one event from an invariant-satisfying session never
raises and preserves the invariant. -/
lemma process_event_total (wm : Int) (st : SessionState) (row : Event)
    (hInv : SessionInv st) :
    ∃ st2 out, process_event wm st row = some (st2, out) ∧ SessionInv st2 := by
  cases hg : row.gender with
  | none => exact ⟨st, [], process_event_ineligible wm st row (Or.inl hg), hInv⟩
  | some g =>
    cases ha : row.age with
    | none => exact ⟨st, [], process_event_ineligible wm st row (Or.inr ha), hInv⟩
    | some a =>
      by_cases href : is_page_refresh st row = true
      · exact ⟨{ st with offer := offer_for g }, [],
          process_event_refresh wm st row g a hg ha href, hInv.1, hInv.2⟩
      · simp only [Bool.not_eq_true] at href
        obtain ⟨ts, htr⟩ : ∃ ts, transitions st.state = some ts := by
          rcases hInv.1 with h | h | h <;> rw [h] <;> exact ⟨_, rfl⟩
        have hshoes : st.state = "shoes_visited" → st.rows ≠ [] := by
          intro hs hrows
          have h2 := hInv.2.mp hrows
          rw [hs] at h2
          exact absurd h2 (by decide)
        have hconds :=
          conds_isSome row { st with offer := offer_for g } g a ts hg ha hInv.1 hshoes htr
        obtain ⟨r, hfind, htgt⟩ :=
          find_transition_total wm row { st with offer := offer_for g } ts hconds
        have heq := process_event_eq_of_find wm st row g a ts r hg ha href htr hfind
        cases r with
        | none =>
          exact ⟨⟨"init", [], offer_for g⟩, [], heq, Or.inl rfl, by simp⟩
        | some ns =>
          rcases targets_ok st.state ts ns hInv.1 htr (htgt ns rfl) with hns | hns | hns <;>
            subst hns
          · refine ⟨⟨"clothes_visited", st.rows ++ [row], offer_for g⟩, [], ?_, ?_, ?_⟩
            · rw [heq]; rfl
            · exact Or.inr (Or.inl rfl)
            · simp
          · refine ⟨⟨"shoes_visited", st.rows ++ [row], offer_for g⟩, [], ?_, ?_, ?_⟩
            · rw [heq]; rfl
            · exact Or.inr (Or.inr rfl)
            · simp
          · refine ⟨⟨"init", [], offer_for g⟩, [(row.userId, offer_for g)], ?_, ?_, ?_⟩
            · rw [heq]; rfl
            · exact Or.inl rfl
            · simp

/-- Processing a sequence of events from an invariant-satisfying
session never raises and preserves the invariant. -/
lemma process_events_total (wm : Int) :
    ∀ (es : List Event) (st : SessionState) (recips : List (String × String)),
    SessionInv st →
    ∃ st2 out, process_events wm st recips es = some (st2, out) ∧ SessionInv st2 := by
  intro es
  induction es with
  | nil => exact fun st recips h => ⟨st, recips, rfl, h⟩
  | cons e es ih =>
    intro st recips h
    obtain ⟨st1, out1, he, h1⟩ := process_event_total wm st e h
    obtain ⟨st2, out2, hes, h2⟩ := ih st1 (recips ++ out1) h1
    exact ⟨st2, out2, by rw [process_events, he]; exact hes, h2⟩

/-! ### Claims -/

/-- C6: for every event missing its age attribute or its gender
attribute, processing leaves the session state of its key entirely
unchanged and appends no recipient entry. -/
theorem eligibility_skip (wm : Int) (st : SessionState) (row : Event)
    (h : row.gender = none ∨ row.age = none) :
    process_event wm st row = some (st, []) :=
  process_event_ineligible wm st row h

theorem eligibility_skip_witness :
    process_event 30 initialState ⟨"", 0, "u1", "clothing", none, some "M", "", "P1"⟩ =
      some (initialState, []) :=
  eligibility_skip 30 initialState ⟨"", 0, "u1", "clothing", none, some "M", "", "P1"⟩
    (Or.inr rfl)

/-- C9: for a fixed key, processing is deterministic: two runs fed the
identical ordered event sequence from identical session states and
recipient lists produce identical results. -/
theorem determinism (wm : Int) (st : SessionState)
    (recips : List (String × String)) (es : List Event)
    (o1 o2 : Option (SessionState × List (String × String)))
    (h1 : process_events wm st recips es = o1)
    (h2 : process_events wm st recips es = o2) : o1 = o2 :=
  h1.symm.trans h2

theorem determinism_witness :
    (some (initialState, []) :
      Option (SessionState × List (String × String))) = some (initialState, []) :=
  determinism 30 initialState [] [] _ _ rfl rfl

/-- C5: for every session state reachable by processing a sequence of
events from the empty/default state, at rest, `rows` is empty iff the
state is `init`. -/
theorem rows_empty_iff_init (wm : Int) (es : List Event)
    (st2 : SessionState) (out : List (String × String))
    (h : process_events wm initialState [] es = some (st2, out)) :
    st2.rows = [] ↔ st2.state = "init" := by
  obtain ⟨st3, out3, he, hInv⟩ :=
    process_events_total wm es initialState [] sessionInv_initialState
  rw [h] at he
  cases he
  exact hInv.2

theorem rows_empty_iff_init_witness :
    ((⟨"clothes_visited",
        [⟨"", 0, "u1", "clothing", some 40, some "M", "", "P1"⟩],
        "offer1"⟩ : SessionState).rows = []
      ↔ (⟨"clothes_visited",
          [⟨"", 0, "u1", "clothing", some 40, some "M", "", "P1"⟩],
          "offer1"⟩ : SessionState).state = "init") :=
  rows_empty_iff_init 30 [⟨"", 0, "u1", "clothing", some 40, some "M", "", "P1"⟩]
    ⟨"clothes_visited", [⟨"", 0, "u1", "clothing", some 40, some "M", "", "P1"⟩], "offer1"⟩
    [] (by decide)

/-- C10: from the default state, every rest state is one of the three
declared states (so the transition-table lookup never fails) and the
`rows` head accesses of the shoes_visited guards and the window check
are in bounds; in this embedding, processing therefore never yields
`none`. -/
theorem reachable_state_safety (wm : Int) (es : List Event) :
    ∃ st2 out, process_events wm initialState [] es = some (st2, out)
      ∧ (st2.state = "init" ∨ st2.state = "clothes_visited"
          ∨ st2.state = "shoes_visited")
      ∧ (st2.rows = [] ↔ st2.state = "init") := by
  obtain ⟨st2, out, he, hInv⟩ :=
    process_events_total wm es initialState [] sessionInv_initialState
  exact ⟨st2, out, he, hInv.1, hInv.2⟩

/-- C7 counterexample: an eligible event caught by the page-refresh
guard does not leave the entire session state unmodified: the offer
field has already been rewritten from the gender of the incoming event
before the guard runs.  The session below is reached by a female
age-30 clothing click; the incoming male event reloads the same
product, is skipped, yet flips the offer field from offer2 to
offer1. -/
theorem page_refresh_offer_cex :
    is_page_refresh
        ⟨"clothes_visited", [⟨"", 0, "u1", "clothing", some 30, some "F", "", "P1"⟩], "offer2"⟩
        ⟨"", 1, "u1", "shoes", some 40, some "M", "", "P1"⟩ = true
    ∧ process_event 30
        ⟨"clothes_visited", [⟨"", 0, "u1", "clothing", some 30, some "F", "", "P1"⟩], "offer2"⟩
        ⟨"", 1, "u1", "shoes", some 40, some "M", "", "P1"⟩ =
      some (⟨"clothes_visited",
              [⟨"", 0, "u1", "clothing", some 30, some "F", "", "P1"⟩], "offer1"⟩, [])
    ∧ (⟨"clothes_visited",
          [⟨"", 0, "u1", "clothing", some 30, some "F", "", "P1"⟩], "offer1"⟩ : SessionState)
        ≠ ⟨"clothes_visited",
            [⟨"", 0, "u1", "clothing", some 30, some "F", "", "P1"⟩], "offer2"⟩ := by
  refine ⟨by decide, by decide, by decide⟩

/-- C7 (amended): an eligible event caught by the page-refresh guard
leaves `state` and `rows` unmodified and appends no recipient entry;
the offer field, however, is recomputed from the gender of the
incoming event before the guard runs. -/
theorem page_refresh_skip (wm : Int) (st : SessionState) (row : Event)
    (g : String) (a : Int)
    (hg : row.gender = some g) (ha : row.age = some a)
    (href : is_page_refresh st row = true) :
    process_event wm st row = some ({ st with offer := offer_for g }, []) :=
  process_event_refresh wm st row g a hg ha href

theorem page_refresh_skip_witness :
    process_event 30
        ⟨"clothes_visited", [⟨"", 0, "u1", "clothing", some 30, some "F", "", "P1"⟩], "offer2"⟩
        ⟨"", 1, "u1", "shoes", some 40, some "M", "", "P1"⟩ =
      some (⟨"clothes_visited",
              [⟨"", 0, "u1", "clothing", some 30, some "F", "", "P1"⟩], "offer1"⟩, []) :=
  page_refresh_skip 30
    ⟨"clothes_visited", [⟨"", 0, "u1", "clothing", some 30, some "F", "", "P1"⟩], "offer2"⟩
    ⟨"", 1, "u1", "shoes", some 40, some "M", "", "P1"⟩ "M" 40 rfl rfl (by decide)

/-- C8 counterexample: two consecutive eligible events for the same
key sharing productId P1 where processing the second is not a no-op.
The first event (male, age 50, outside 35 to 45) matches no rule from
`init`, so the session resets and the event is not retained in `rows`;
the duplicate guard, which compares against the last element of
`rows`, therefore does not see P1 again, and the second event (male,
age 40) advances the automaton to clothes_visited and is appended. -/
theorem duplicate_suppression_cex :
    process_event 30 initialState ⟨"", 0, "u1", "clothing", some 50, some "M", "", "P1"⟩ =
      some (⟨"init", [], "offer1"⟩, [])
    ∧ process_event 30 ⟨"init", [], "offer1"⟩
        ⟨"", 1, "u1", "clothing", some 40, some "M", "", "P1"⟩ =
      some (⟨"clothes_visited",
              [⟨"", 1, "u1", "clothing", some 40, some "M", "", "P1"⟩], "offer1"⟩, [])
    ∧ ("clothes_visited" : String) ≠ "init"
    ∧ ([⟨"", 1, "u1", "clothing", some 40, some "M", "", "P1"⟩] : List Event) ≠ [] := by
  refine ⟨by decide, by decide, by decide, by decide⟩

/-- C8 (amended): if the first of two consecutive eligible events
sharing a productId was accepted into the session (it is the last
element of `rows` after its processing), then the second is a no-op on
`state` and `rows` and is not appended; only the offer field is
recomputed from its gender. -/
theorem duplicate_suppression (wm : Int) (st st1 : SessionState)
    (e1 e2 : Event) (g2 : String) (a2 : Int)
    (out1 : List (String × String))
    (_h1 : process_event wm st e1 = some (st1, out1))
    (hlast : st1.rows.getLast? = some e1)
    (hg : e2.gender = some g2) (ha : e2.age = some a2)
    (hp : e2.productId = e1.productId) :
    process_event wm st1 e2 = some ({ st1 with offer := offer_for g2 }, []) := by
  have href : is_page_refresh st1 e2 = true := by
    simp [is_page_refresh, hlast, hp]
  exact process_event_refresh wm st1 e2 g2 a2 hg ha href

theorem duplicate_suppression_witness :
    process_event 30
        ⟨"clothes_visited", [⟨"", 0, "u1", "clothing", some 40, some "M", "", "P1"⟩], "offer1"⟩
        ⟨"", 1, "u1", "shoes", some 40, some "M", "", "P1"⟩ =
      some (⟨"clothes_visited",
              [⟨"", 0, "u1", "clothing", some 40, some "M", "", "P1"⟩], "offer1"⟩, []) :=
  duplicate_suppression 30 initialState
    ⟨"clothes_visited", [⟨"", 0, "u1", "clothing", some 40, some "M", "", "P1"⟩], "offer1"⟩
    ⟨"", 0, "u1", "clothing", some 40, some "M", "", "P1"⟩
    ⟨"", 1, "u1", "shoes", some 40, some "M", "", "P1"⟩
    "M" 40 [] (by decide) (by decide) rfl rfl rfl

/-- C2: an eligible, non-duplicate event whose matched transition
lands the automaton in the offer state appends exactly one recipient
entry (the userId paired with the offer computed from its gender) and
resets the session to `init` with empty `rows`, in the same processing
step; moreover, processing an eligible event never leaves the offer
state at rest. -/
theorem offer_resolution (wm : Int) (st : SessionState) (row : Event)
    (g : String) (a : Int) (ts : List Transition)
    (hg : row.gender = some g) (ha : row.age = some a)
    (href : is_page_refresh st row = false)
    (htr : transitions st.state = some ts)
    (hfind : find_transition wm row { st with offer := offer_for g } ts =
      some (some "offer")) :
    process_event wm st row =
      some (⟨"init", [], offer_for g⟩, [(row.userId, offer_for g)])
    ∧ ∀ st0 st2 out, st0.state ≠ "offer" →
        process_event wm st0 row = some (st2, out) → st2.state ≠ "offer" := by
  constructor
  · rw [process_event_eq_of_find wm st row g a ts (some "offer") hg ha href htr hfind]
    rfl
  · intro st0 st2 out h0 hp
    simp only [process_event, hg, ha] at hp
    by_cases hr : is_page_refresh { st0 with offer := offer_for g } row = true
    · rw [if_pos hr] at hp
      cases hp
      exact h0
    · simp only [Bool.not_eq_true] at hr
      rw [hr] at hp
      simp only [Bool.false_eq_true, if_false] at hp
      cases htr0 : transitions st0.state with
      | none => rw [htr0] at hp; cases hp
      | some ts0 =>
        simp only [htr0] at hp
        cases hf : find_transition wm row { st0 with offer := offer_for g } ts0 with
        | none => rw [hf] at hp; cases hp
        | some r =>
          simp only [hf] at hp
          cases r with
          | none =>
            cases hp
            exact (by decide : ("init" : String) ≠ "offer")
          | some ns =>
            by_cases hns : (ns == "offer") = true
            · simp only [hns, if_true] at hp
              cases hp
              exact (by decide : ("init" : String) ≠ "offer")
            · simp only [hns, Bool.false_eq_true, if_false] at hp
              cases hp
              simpa using hns

theorem offer_resolution_witness :
    process_event 30
        ⟨"shoes_visited",
          [⟨"", 0, "u1", "clothing", some 40, some "M", "", "P1"⟩,
           ⟨"", 1, "u1", "shoes", some 40, some "M", "", "P2"⟩], "offer1"⟩
        ⟨"", 2, "u1", "clothing", some 40, some "M", "", "P3"⟩ =
      some (⟨"init", [], "offer1"⟩, [("u1", "offer1")]) :=
  (offer_resolution 30
    ⟨"shoes_visited",
      [⟨"", 0, "u1", "clothing", some 40, some "M", "", "P1"⟩,
       ⟨"", 1, "u1", "shoes", some 40, some "M", "", "P2"⟩], "offer1"⟩
    ⟨"", 2, "u1", "clothing", some 40, some "M", "", "P3"⟩
    "M" 40
    [⟨cond_shoes_offer, "offer"⟩, ⟨cond_shoes_clothing, "clothes_visited"⟩]
    rfl rfl (by decide) rfl (by decide)).1

/-- C4: for every eligible, non-duplicate event matching no rule of
the current state, processing resets the session to `init` with empty
`rows`: the whole candidate session, anchor included, is discarded and
the triggering event is not retained as a new anchor. -/
theorem reset_on_no_match (wm : Int) (st : SessionState) (row : Event)
    (g : String) (a : Int) (ts : List Transition)
    (hg : row.gender = some g) (ha : row.age = some a)
    (href : is_page_refresh st row = false)
    (htr : transitions st.state = some ts)
    (hfind : find_transition wm row { st with offer := offer_for g } ts = some none) :
    process_event wm st row = some (⟨"init", [], offer_for g⟩, []) := by
  rw [process_event_eq_of_find wm st row g a ts none hg ha href htr hfind]

theorem reset_on_no_match_witness :
    process_event 30 initialState ⟨"", 0, "u1", "clothing", some 50, some "M", "", "P1"⟩ =
      some (⟨"init", [], "offer1"⟩, []) :=
  reset_on_no_match 30 initialState
    ⟨"", 0, "u1", "clothing", some 50, some "M", "", "P1"⟩ "M" 50
    [⟨cond_init_clothing, "clothes_visited"⟩]
    rfl rfl (by decide) rfl (by decide)

/-- C3: an eligible, non-duplicate event whose timestamp lies at least
the window duration after the anchor timestamp matches no rule in any
declared state, whatever its category and demographics, and processing
resets the session to `init` with empty `rows`; on an empty session
the window guard passes trivially. -/
theorem window_enforcement (wm : Int) (st : SessionState) (row : Event)
    (g : String) (a : Int) (r0 : Event)
    (hg : row.gender = some g) (ha : row.age = some a)
    (href : is_page_refresh st row = false)
    (hok : StateOK st)
    (hhead : st.rows.head? = some r0)
    (helapsed : window_ns wm ≤ row.timestamp - r0.timestamp) :
    process_event wm st row = some (⟨"init", [], offer_for g⟩, [])
    ∧ ∀ st2 : SessionState, st2.rows = [] → check_time_elapsed wm row st2 = true := by
  obtain ⟨tl, hr⟩ : ∃ tl, st.rows = r0 :: tl := by
    cases hcase : st.rows with
    | nil => rw [hcase] at hhead; cases hhead
    | cons x tl =>
      rw [hcase] at hhead
      simp only [List.head?_cons, Option.some.injEq] at hhead
      exact ⟨tl, by rw [hhead]⟩
  have hrows : st.rows ≠ [] := by rw [hr]; simp
  have htime : check_time_elapsed wm row { st with offer := offer_for g } = false := by
    simp only [check_time_elapsed]
    have hr2 : ({ st with offer := offer_for g } : SessionState).rows = r0 :: tl := hr
    rw [hr2]
    exact decide_eq_false (not_lt.mpr helapsed)
  obtain ⟨ts, htr⟩ : ∃ ts, transitions st.state = some ts := by
    rcases hok with h | h | h <;> rw [h] <;> exact ⟨_, rfl⟩
  have hconds :=
    conds_isSome row { st with offer := offer_for g } g a ts hg ha hok
      (fun _ => hrows) htr
  have hfind := find_transition_no_match wm row { st with offer := offer_for g } ts
    htime hconds
  refine ⟨?_, ?_⟩
  · rw [process_event_eq_of_find wm st row g a ts none hg ha href htr hfind]
  · intro st2 h2
    simp [check_time_elapsed, h2]

theorem window_enforcement_witness :
    process_event 30
        ⟨"clothes_visited", [⟨"", 0, "u1", "clothing", some 40, some "M", "", "P1"⟩], "offer1"⟩
        ⟨"", 1800000000000, "u1", "shoes", some 40, some "M", "", "P2"⟩ =
      some (⟨"init", [], "offer1"⟩, []) :=
  (window_enforcement 30
    ⟨"clothes_visited", [⟨"", 0, "u1", "clothing", some 40, some "M", "", "P1"⟩], "offer1"⟩
    ⟨"", 1800000000000, "u1", "shoes", some 40, some "M", "", "P2"⟩
    "M" 40 ⟨"", 0, "u1", "clothing", some 40, some "M", "", "P1"⟩
    rfl rfl (by decide) (Or.inr (Or.inl rfl)) rfl (by decide)).1

/-- C1: end-to-end scenario A.  A male, age-40 user clicking
clothing/P1, then shoes/P2, then clothing/P3 with distinct products,
all inside the time window and starting from the empty/default
session, moves the automaton through clothes_visited and
shoes_visited to offer; the recipient entry (userId, offer1) is
appended and the final session is back at `init` with empty `rows`. -/
theorem scenario_a (wm t1 t2 t3 : Int) (u p1 p2 p3 : String)
    (h12 : p1 ≠ p2) (h23 : p2 ≠ p3) (h31 : p3 ≠ p1)
    (hw2 : t2 - t1 < window_ns wm) (hw3 : t3 - t1 < window_ns wm) :
    process_event wm initialState (clickEvent t1 u "M" 40 "clothing" p1) =
      some (⟨"clothes_visited", [clickEvent t1 u "M" 40 "clothing" p1], "offer1"⟩, [])
    ∧ process_event wm
        ⟨"clothes_visited", [clickEvent t1 u "M" 40 "clothing" p1], "offer1"⟩
        (clickEvent t2 u "M" 40 "shoes" p2) =
      some (⟨"shoes_visited",
              [clickEvent t1 u "M" 40 "clothing" p1,
               clickEvent t2 u "M" 40 "shoes" p2], "offer1"⟩, [])
    ∧ process_event wm
        ⟨"shoes_visited",
          [clickEvent t1 u "M" 40 "clothing" p1,
           clickEvent t2 u "M" 40 "shoes" p2], "offer1"⟩
        (clickEvent t3 u "M" 40 "clothing" p3) =
      some (⟨"init", [], "offer1"⟩, [(u, "offer1")])
    ∧ process_events wm initialState []
        [clickEvent t1 u "M" 40 "clothing" p1,
         clickEvent t2 u "M" 40 "shoes" p2,
         clickEvent t3 u "M" 40 "clothing" p3] =
      some (⟨"init", [], "offer1"⟩, [(u, "offer1")]) := by
  have b12 : (p1 == p2) = false := beq_eq_false_iff_ne.mpr h12
  have b23 : (p2 == p3) = false := beq_eq_false_iff_ne.mpr h23
  have b31 : (p3 == p1) = false := beq_eq_false_iff_ne.mpr h31
  have step1 : process_event wm initialState (clickEvent t1 u "M" 40 "clothing" p1) =
      some (⟨"clothes_visited", [clickEvent t1 u "M" 40 "clothing" p1], "offer1"⟩, []) := rfl
  have href2 : is_page_refresh
      ⟨"clothes_visited", [clickEvent t1 u "M" 40 "clothing" p1], "offer1"⟩
      (clickEvent t2 u "M" 40 "shoes" p2) = false := by
    simp [is_page_refresh, clickEvent, b12]
  have hfind2 : find_transition wm (clickEvent t2 u "M" 40 "shoes" p2)
      ⟨"clothes_visited", [clickEvent t1 u "M" 40 "clothing" p1], "offer1"⟩
      [⟨cond_clothes_shoes, "shoes_visited"⟩,
       ⟨cond_clothes_clothing, "clothes_visited"⟩] = some (some "shoes_visited") := by
    simp [find_transition, cond_clothes_shoes, check_time_elapsed, clickEvent, hw2]
  have step2 : process_event wm
      ⟨"clothes_visited", [clickEvent t1 u "M" 40 "clothing" p1], "offer1"⟩
      (clickEvent t2 u "M" 40 "shoes" p2) =
      some (⟨"shoes_visited",
              [clickEvent t1 u "M" 40 "clothing" p1,
               clickEvent t2 u "M" 40 "shoes" p2], "offer1"⟩, []) := by
    rw [process_event_eq_of_find wm
      ⟨"clothes_visited", [clickEvent t1 u "M" 40 "clothing" p1], "offer1"⟩
      (clickEvent t2 u "M" 40 "shoes" p2) "M" 40
      [⟨cond_clothes_shoes, "shoes_visited"⟩,
       ⟨cond_clothes_clothing, "clothes_visited"⟩]
      (some "shoes_visited") rfl rfl href2 rfl hfind2]
    rfl
  have href3 : is_page_refresh
      ⟨"shoes_visited",
        [clickEvent t1 u "M" 40 "clothing" p1,
         clickEvent t2 u "M" 40 "shoes" p2], "offer1"⟩
      (clickEvent t3 u "M" 40 "clothing" p3) = false := by
    simp [is_page_refresh, clickEvent, b23]
  have hfind3 : find_transition wm (clickEvent t3 u "M" 40 "clothing" p3)
      ⟨"shoes_visited",
        [clickEvent t1 u "M" 40 "clothing" p1,
         clickEvent t2 u "M" 40 "shoes" p2], "offer1"⟩
      [⟨cond_shoes_offer, "offer"⟩,
       ⟨cond_shoes_clothing, "clothes_visited"⟩] = some (some "offer") := by
    simp [find_transition, cond_shoes_offer, check_time_elapsed, clickEvent, hw3, b31, h31]
  have step3 : process_event wm
      ⟨"shoes_visited",
        [clickEvent t1 u "M" 40 "clothing" p1,
         clickEvent t2 u "M" 40 "shoes" p2], "offer1"⟩
      (clickEvent t3 u "M" 40 "clothing" p3) =
      some (⟨"init", [], "offer1"⟩, [(u, "offer1")]) := by
    rw [process_event_eq_of_find wm
      ⟨"shoes_visited",
        [clickEvent t1 u "M" 40 "clothing" p1,
         clickEvent t2 u "M" 40 "shoes" p2], "offer1"⟩
      (clickEvent t3 u "M" 40 "clothing" p3) "M" 40
      [⟨cond_shoes_offer, "offer"⟩,
       ⟨cond_shoes_clothing, "clothes_visited"⟩]
      (some "offer") rfl rfl href3 rfl hfind3]
    rfl
  refine ⟨step1, step2, step3, ?_⟩
  simp [process_events, step1, step2, step3]

theorem scenario_a_witness :
    ("P1" : String) ≠ "P2"
    ∧ ("P3" : String) ≠ "P1"
    ∧ process_events 30 initialState []
        [clickEvent 0 "u1" "M" 40 "clothing" "P1",
         clickEvent 1 "u1" "M" 40 "shoes" "P2",
         clickEvent 2 "u1" "M" 40 "clothing" "P3"] =
      some (⟨"init", [], "offer1"⟩, [("u1", "offer1")]) :=
  ⟨by decide, by decide,
    (scenario_a 30 0 1 2 "u1" "P1" "P2" "P3" (by decide) (by decide) (by decide)
      (by decide) (by decide)).2.2.2⟩
